import Mathlib

/-!
Verification of the iotdomain-go publisher library core against its
natural-language specification.  The Go sources are shallowly embedded:
pure helpers become Lean functions, registries become explicit state
records, Go `nil`-able pointers and maps become `Option`, and the
cryptographic and serialization collaborators (ECDSA, JSON, base64)
are abstract function parameters, since their behaviour is irrelevant
to the control flow being verified.
-/

namespace IotDomain

/-- Association-list lookup, modelling a Go `map[string]V` read. -/
def alLookup {V : Type} (l : List (String × V)) (k : String) : Option V :=
  match l with
  | [] => none
  | (k', v) :: rest => if k' = k then some v else alLookup rest k

/-- Association-list insert-or-replace, modelling a Go `map[string]V` write. -/
def alInsert {V : Type} (l : List (String × V)) (k : String) (v : V) :
    List (String × V) :=
  match l with
  | [] => [(k, v)]
  | (k', v') :: rest =>
    if k' = k then (k, v) :: rest else (k', v') :: alInsert rest k v

/-- Set-like insert for a key set (a Go `map[string]string` used as a set
of IDs, key = value): add the ID if absent, otherwise leave the set
unchanged.  Go map iteration order is unspecified, so the position of the
new ID is immaterial. -/
def idInsert (l : List String) (k : String) : List String :=
  if k ∈ l then l else k :: l

/-- Helper for `splitSlash`: walk the characters, cutting at every `/`;
`acc` holds the current segment's characters in reverse. -/
def splitSlashAux : List Char → List Char → List String
  | [], acc => [String.mk acc.reverse]
  | c :: rest, acc =>
    if c = '/' then String.mk acc.reverse :: splitSlashAux rest []
    else splitSlashAux rest (c :: acc)

/-- Go's `strings.Split(s, "/")`: the list of slash-separated segments
(`[""]` for the empty string, with empty segments kept, exactly as in
Go).  Defined by structural recursion on the characters so that concrete
instances evaluate. -/
def splitSlash (s : String) : List String :=
  splitSlashAux s.data []

/-! ## Identity data model (types.PublisherIdentity / PublisherIdentityMessage)

The `types` package is not among the sources; the field sets are those the
spec lists for **PublisherIdentity** and `PublisherIdentityMessage`. -/

/-- The identity body of a publisher (spec §3, `PublisherIdentity`). -/
structure PublisherIdentity where
  domain : String
  publisherID : String
  publicSigning : String
  publicEncryption : String
  issuer : String
  validFrom : String
  validUntil : String
deriving DecidableEq, Repr

/-- The `$identity` wire message (spec §6, `PublisherIdentityMessage`). -/
structure PublisherIdentityMessage where
  address : String
  publisherID : String
  identity : PublisherIdentity
  identitySignature : String
  signerAddress : String
  timestamp : String
deriving DecidableEq, Repr

/-! ## Trust directory (publishers.PublisherList)

The `publishers` package is not among the sources; the directory is
modelled from the spec. -/

/-- Modelled from the spec: the trust directory (`publishers.PublisherList`,
whose source is not in the repository snapshot) "maintains a mapping from
publisher identity address to the last accepted PublisherIdentity"; "the
directory never evicts; updates replace prior entries".  A Go nil identity
pointer is modelled as `none`; storing it records nothing retrievable, so
it is modelled as leaving the directory unchanged. -/
def UpdatePublisher (dir : List (String × PublisherIdentityMessage))
    (msg : Option PublisherIdentityMessage) :
    List (String × PublisherIdentityMessage) :=
  match msg with
  | none => dir
  | some m => alInsert dir m.address m

/-- Modelled from the spec: `getPublisherKey(address) → publicKey?` returns
the signing key of the identity last stored at `address`, if any. -/
def GetPublisherSigningKey (dir : List (String × PublisherIdentityMessage))
    (addr : String) : Option String :=
  (alLookup dir addr).map fun m => m.identity.publicSigning

/-! ## Publisher discovery handling (publisher/handlepublisher.go) -/

/-- `iotc.DSSPublisherID`: the reserved publisher ID of the domain security
service (spec address pattern `<domain>/$dss/$identity`). -/
def DSSPublisherID : String := "$dss"

/-- `iotc.MessageTypeIdentity` (`$identity`). -/
def MessageTypeIdentity : String := "$identity"

/-- Signing method constant `SigningMethodJWS` (Publisher.go:41). -/
def SigningMethodJWS : String := "jws"

/-- The DSS identity address `<domain>/$dss/$identity` computed at
handlepublisher.go:85. -/
def dssAddress (domain : String) : String :=
  domain ++ "/" ++ DSSPublisherID ++ "/" ++ MessageTypeIdentity

/-- An inbound identity publication as delivered to
`handlePublisherDiscovery`.  `jose.ParseSigned` either fails (the message is
not a JWS envelope, constructor `unsigned`) or yields an envelope
(constructor `jws`) whose payload is recovered *without verification*
(`UnsafePayloadWithoutVerification`, handlepublisher.go:74).  JSON decoding
of the payload into a `PublisherIdentityMessage` is modelled by carrying
`Option PublisherIdentityMessage` (`none` = `json.Unmarshal` error); the
raw signature bytes of the envelope are kept so that verification against
a key can be *stated* even though the code never performs it. -/
inductive InboundEnvelope where
  | unsigned (payload : Option PublisherIdentityMessage)
  | jws (payload : Option PublisherIdentityMessage) (envSignature : String)
deriving DecidableEq, Repr

/-- The part of the publisher state that `handlePublisherDiscovery` reads
and writes: its domain, its signing-method setting, and the trust
directory `domainPublishers`. -/
structure PubState where
  domain : String
  signingMethod : String
  domainPublishers : List (String × PublisherIdentityMessage)
deriving DecidableEq, Repr

/-- Embeds `handleDSSDiscovery` (handlepublisher.go:36-45).  The Go body
declares `var dssIdentity *iotc.PublisherIdentityMessage`, never assigns it
from the parameter `dssIdentityMsg` (which is unused), and calls
`UpdatePublisher(dssIdentity)` on the nil local. -/
def handleDSSDiscovery (dir : List (String × PublisherIdentityMessage))
    (dssIdentityMsg : PublisherIdentityMessage) :
    List (String × PublisherIdentityMessage) :=
  let _ := dssIdentityMsg
  let dssIdentity : Option PublisherIdentityMessage := none
  UpdatePublisher dir dssIdentity

/-- Embeds `handlePublisherDiscovery` (handlepublisher.go:57-118).
`verifyEcdsa sig payload key` abstracts `messenger.VerifyEcdsaSignature`,
`serializeIdentity` abstracts `json.Marshal` of the identity sub-object
(`none` = marshal error), and `base64url` abstracts
`base64.URLEncoding.EncodeToString`.  Control flow follows the source:
an unparseable (non-JWS) message is dropped when `signingMethod = jws`;
a parsed payload that fails JSON decoding is dropped; the DSS address is
routed to `handleDSSDiscovery`; with no DSS key the identity is stored
unconditionally (the envelope signature is never checked); with a DSS key
the identity is stored iff `verifyEcdsa` accepts its
`identitySignature`. -/
def handlePublisherDiscovery
    (verifyEcdsa : String → String → String → Bool)
    (serializeIdentity : PublisherIdentity → Option String)
    (base64url : String → String)
    (st : PubState) (address : String) (message : InboundEnvelope) :
    PubState :=
  let payloadOpt : Option (Option PublisherIdentityMessage) :=
    match message with
    | .unsigned p =>
      if st.signingMethod = SigningMethodJWS then none else some p
    | .jws p _ => some p
  match payloadOpt with
  | none => st
  | some payload =>
    match payload with
    | none => st
    | some pubIdentityMsg =>
      if address = dssAddress st.domain then
        { st with domainPublishers :=
            handleDSSDiscovery st.domainPublishers pubIdentityMsg }
      else
        match GetPublisherSigningKey st.domainPublishers
            (dssAddress st.domain) with
        | none =>
          { st with domainPublishers :=
              UpdatePublisher st.domainPublishers (some pubIdentityMsg) }
        | some dssSigningKey =>
          match serializeIdentity pubIdentityMsg.identity with
          | none => st
          | some identityAsJSON =>
            let base64URLIdentity := base64url identityAsJSON
            let valid := verifyEcdsa base64URLIdentity
                pubIdentityMsg.identitySignature dssSigningKey
            if valid then
              { st with domainPublishers :=
                  UpdatePublisher st.domainPublishers (some pubIdentityMsg) }
            else st

/-! ## Node configure command handling (publisher/handleconfig.go)

`handleNodeConfigCommand` glues together collaborators whose sources are
not part of the snapshot (`messenger.VerifySender`, the node registry's
`GetNodeByAddress` and `SetNodeConfigValues`); those are abstract
parameters, and the registry state is an arbitrary type, so the theorems
hold for every semantics of the collaborators. -/

/-- A node attribute map (`types.NodeAttrMap`, a Go `map[NodeAttr]string`,
nil-able at the use sites, hence wrapped in `Option` where the Go value
may be nil). -/
def NodeAttrMap : Type := List (String × String)

/-- The outcome of `messenger.VerifySender(message, &configureMessage,
getPublisherKey)`: whether the message was signed, an optional
verification error, and the attribute map decoded into
`configureMessage.Attr` (a nil Go map is `none`). -/
structure VerifySenderResult where
  isSigned : Bool
  err : Option String
  decodedAttr : Option NodeAttrMap

/-- Embeds `handleNodeConfigCommand` (handleconfig.go:15-48) over an
arbitrary registry state type `Registry` and node type `Node`.
`verifySender` abstracts `messenger.VerifySender` (applied to the raw
message), `getNodeByAddress` abstracts `Nodes.GetNodeByAddress`,
`setNodeConfigValues` abstracts `Nodes.SetNodeConfigValues`, and
`onNodeConfigHandler` is the optional registered callback returning a
possibly-nil map.  The result is the registry state after handling. -/
def handleNodeConfigCommand {Registry Node : Type}
    (verifySender : String → VerifySenderResult)
    (getNodeByAddress : Registry → String → Option Node)
    (setNodeConfigValues : Registry → String → NodeAttrMap → Registry)
    (onNodeConfigHandler : Option (Node → Option NodeAttrMap → Option NodeAttrMap))
    (reg : Registry) (address : String) (message : String) : Registry :=
  let vr := verifySender message
  if !vr.isSigned then reg
  else if vr.err.isSome then reg
  else
    match getNodeByAddress reg address with
    | none => reg
    | some node =>
      if message = "" then reg
      else
        let params := vr.decodedAttr
        let params :=
          match onNodeConfigHandler with
          | none => params
          | some h => h node params
        match params with
        | none => reg
        | some p => setNodeConfigValues reg address p

/-! ## Output registry (outputs/RegisteredOutputs.go) -/

/-- `types.OutputDiscoveryMessage` with the fields RegisteredOutputs.go
reads and writes (spec §6 wire shape plus the internal-use fields set in
`NewOutput`). -/
structure OutputDiscoveryMessage where
  address : String
  timestamp : String
  nodeHWID : String
  instanceID : String
  outputID : String
  outputType : String
  publisherID : String
deriving DecidableEq, Repr

/-- `RegisteredOutputs` state (RegisteredOutputs.go:12-19).  The Go maps
are association lists; `updatedOutputIDs` is a nil-able `map[string]string`
used as a key set, hence `Option (List String)` with set-insert. -/
structure RegisteredOutputs where
  addressMap : List (String × String)
  domain : String
  publisherID : String
  outputsByID : List (String × OutputDiscoveryMessage)
  updatedOutputIDs : Option (List String)
deriving DecidableEq, Repr

/-- `MakeOutputID` (RegisteredOutputs.go:147-150). -/
def MakeOutputID (nodeHWID : String) (outputType : String)
    (instanceID : String) : String :=
  nodeHWID ++ "." ++ outputType ++ "." ++ instanceID

/-- `updateOutput` (RegisteredOutputs.go:132-144): replace the output in
both maps, stamp it with the current time (the wall clock is the explicit
parameter `now`), and unconditionally add its ID to the updated set.  The
Go stores the output pointer before assigning `output.Timestamp`, so the
stored record carries the new timestamp; the model stamps first. -/
def updateOutput (regOutputs : RegisteredOutputs) (now : String)
    (output : Option OutputDiscoveryMessage) : RegisteredOutputs :=
  match output with
  | none => regOutputs
  | some output =>
    let output := { output with timestamp := now }
    { regOutputs with
      outputsByID := alInsert regOutputs.outputsByID output.outputID output
      addressMap := alInsert regOutputs.addressMap output.address output.outputID
      updatedOutputIDs :=
        some (idInsert (regOutputs.updatedOutputIDs.getD []) output.outputID) }

/-- `UpdateOutput` (RegisteredOutputs.go:124-128), the public mutator. -/
def UpdateOutput (regOutputs : RegisteredOutputs) (now : String)
    (output : Option OutputDiscoveryMessage) : RegisteredOutputs :=
  updateOutput regOutputs now output

/-- `NewOutput` (RegisteredOutputs.go:155-171) with the discovery address
built by `MakeOutputDiscoveryAddress`
(`<domain>/<publisher>/<nodeHWID>/$output/<type>/<instance>`, per the
spec's address grammar; its source file is not in the snapshot). -/
def NewOutput (domain : String) (publisherID : String) (nodeHWID : String)
    (outputType : String) (instanceID : String) (now : String) :
    OutputDiscoveryMessage :=
  { address := domain ++ "/" ++ publisherID ++ "/" ++ nodeHWID ++
      "/$output/" ++ outputType ++ "/" ++ instanceID
    timestamp := now
    nodeHWID := nodeHWID
    instanceID := instanceID
    outputID := MakeOutputID nodeHWID outputType instanceID
    outputType := outputType
    publisherID := publisherID }

/-- `CreateOutput` (RegisteredOutputs.go:22-31). -/
def CreateOutput (regOutputs : RegisteredOutputs) (now : String)
    (hwID : String) (outputType : String) (instanceID : String) :
    OutputDiscoveryMessage × RegisteredOutputs :=
  let output := NewOutput regOutputs.domain regOutputs.publisherID hwID
    outputType instanceID now
  (output, updateOutput regOutputs now (some output))

/-- `GetOutputByID` (RegisteredOutputs.go:81-86). -/
def GetOutputByID (regOutputs : RegisteredOutputs) (outputID : String) :
    Option OutputDiscoveryMessage :=
  alLookup regOutputs.outputsByID outputID

/-- `GetOutputByAddress` (RegisteredOutputs.go:48-54): double lookup via
the address map; a missing address yields the zero string ID in Go, which
then misses in `outputsByID`. -/
def GetOutputByAddress (regOutputs : RegisteredOutputs)
    (outputAddr : String) : Option OutputDiscoveryMessage :=
  match alLookup regOutputs.addressMap outputAddr with
  | none => alLookup regOutputs.outputsByID ""
  | some outputID => alLookup regOutputs.outputsByID outputID

/-- `GetUpdatedOutputs` (RegisteredOutputs.go:90-107): collect the outputs
named by the updated-ID set (skipping IDs with no registered output), and
clear the set when asked.  Returns the list together with the registry
after the call. -/
def GetUpdatedOutputs (regOutputs : RegisteredOutputs)
    (clearUpdates : Bool) :
    List OutputDiscoveryMessage × RegisteredOutputs :=
  match regOutputs.updatedOutputIDs with
  | none => ([], regOutputs)
  | some ids =>
    let updateList := ids.filterMap fun outputID =>
      alLookup regOutputs.outputsByID outputID
    if clearUpdates then
      (updateList, { regOutputs with updatedOutputIDs := none })
    else (updateList, regOutputs)

/-! ## Node registry surface used by the publication code

`nodes/RegisteredNodes.go` is not part of the snapshot (only its test
file is); the operations the verified code calls are modelled from the
spec (§4.4). -/

/-- A typed configuration descriptor.  The spec's ConfigDescriptor also
carries dataType, description, default and bounds; only the current value
(wire field `value`) is read by the operations verified here. -/
structure ConfigDescriptor where
  value : String
deriving DecidableEq, Repr

/-- A registered node with the fields the publication code reads:
its address, its hardware ID and its configuration map. -/
structure NodeDiscoveryMessage where
  address : String
  hwID : String
  config : List (String × ConfigDescriptor)
deriving DecidableEq, Repr

/-- Modelled from the spec: bool parsing for `getNodeConfigBool` "accepts
true/false/1/0/yes/no case-insensitively" (§4.4). -/
def parseBool (s : String) : Option Bool :=
  let ls := s.toLower
  if ls = "true" ∨ ls = "1" ∨ ls = "yes" then some true
  else if ls = "false" ∨ ls = "0" ∨ ls = "no" then some false
  else none

/-- Modelled from the spec: `getNodeByHWID(hwID)` of the node registry
(RegisteredNodes.go is not in the snapshot). -/
def GetNodeByHWID (registeredNodes : List NodeDiscoveryMessage)
    (hwID : String) : Option NodeDiscoveryMessage :=
  registeredNodes.find? fun n => n.hwID = hwID

/-- Modelled from the spec: `getNodeConfigBool(node, attrKey, default)`
"returns the parsed currentValue; on unknown node or unknown key, returns
`default` plus ErrNotFound; on parse mismatch, returns `default` plus
ErrTypeMismatch" (§4.4).  The caller in PublishUpdates.go identifies the
node by its address. -/
def GetNodeConfigBool (registeredNodes : List NodeDiscoveryMessage)
    (address : String) (attr : String) (defaultValue : Bool) :
    Bool × Option String :=
  match registeredNodes.find? (fun n => n.address = address) with
  | none => (defaultValue, some "ErrNotFound")
  | some node =>
    match alLookup node.config attr with
    | none => (defaultValue, some "ErrNotFound")
    | some c =>
      match parseBool c.value with
      | none => (defaultValue, some "ErrTypeMismatch")
      | some b => (b, none)

/-! ## Output values (outputs/RegisteredOutputValues.go, not in snapshot) -/

/-- One stored output value `{value, timestamp}` (spec §3). -/
structure OutputValue where
  value : String
  timestamp : String
deriving DecidableEq, Repr

/-- Modelled from the spec: the per-output value ring, newest first
(§4.5); the registry keys histories by output ID. -/
def RegisteredOutputValues : Type := List (String × List OutputValue)

/-- Modelled from the spec: `getLatest(outputID)` "returns history[0] or
nil" (§4.5); `GetOutputValueByID` is the latest value of the output. -/
def GetOutputValueByID (vals : RegisteredOutputValues)
    (outputID : String) : Option OutputValue :=
  (alLookup vals outputID).bind List.head?

/-- Modelled from the spec: `getHistory(outputID)` returns the
newest-first snapshot (§4.5). -/
def GetHistory (vals : RegisteredOutputValues) (outputID : String) :
    List OutputValue :=
  (alLookup vals outputID).getD []

/-! ## Publication of updated output values (publisher/PublishUpdates.go) -/

/-- `types.NodeAttrPublishRaw` and friends: the per-node config keys
gating the publication forms (spec §4.8). -/
def NodeAttrPublishRaw : String := "publishRaw"

/-- `types.NodeAttrPublishLatest`. -/
def NodeAttrPublishLatest : String := "publishLatest"

/-- `types.NodeAttrPublishHistory`. -/
def NodeAttrPublishHistory : String := "publishHistory"

/-- `types.NodeAttrPublishEvent`. -/
def NodeAttrPublishEvent : String := "publishEvent"

/-- `types.MessageTypeEvent` (`$event`). -/
def MessageTypeEvent : String := "$event"

/-- `GetOutputsByNodeHWID` (RegisteredOutputs.go:57-67). -/
def GetOutputsByNodeHWID (regOutputs : RegisteredOutputs)
    (hwID : String) : List OutputDiscoveryMessage :=
  regOutputs.outputsByID.filterMap fun kv =>
    if kv.2.nodeHWID = hwID then some kv.2 else none

/-- Modelled from the spec: `replaceMessageType(addr, newType)` of the
address grammar (§4.1) replaces the `messageType` segment (the fourth
slash-separated segment) of an address. -/
def ReplaceMessageType (addr : String) (newType : String) : String :=
  String.intercalate "/" ((splitSlash addr).set 3 newType)

/-- One outbound publication produced for an updated output value.  The
publication helpers `PublishOutputRaw` / `PublishOutputLatest` /
`PublishOutputHistory` live in the `outputs` package (not in the
snapshot); the trace records that they were invoked and with which
arguments. -/
inductive OutputPublication where
  | raw (output : OutputDiscoveryMessage) (value : String)
  | latest (output : OutputDiscoveryMessage) (value : OutputValue)
  | history (output : OutputDiscoveryMessage) (history : List OutputValue)
  | event (address : String) (event : List (String × String))
deriving DecidableEq, Repr

/-- Embeds `PublishOutputEvent` (PublishUpdates.go:81-113): collect all
outputs of the node, build the `ioType/instance → value` event map (empty
value when an output has no latest value), and publish on the node's
`$event` address; a node with no outputs yields an error and nothing is
published (`none`). -/
def PublishOutputEvent (node : NodeDiscoveryMessage)
    (registeredOutputs : RegisteredOutputs)
    (outputValues : RegisteredOutputValues) : Option OutputPublication :=
  let aliasAddress := ReplaceMessageType node.address MessageTypeEvent
  let nodeOutputs := GetOutputsByNodeHWID registeredOutputs node.hwID
  if nodeOutputs.isEmpty then none
  else
    let event := nodeOutputs.map fun output =>
      (output.outputType ++ "/" ++ output.instanceID,
        match GetOutputValueByID outputValues output.outputID with
        | none => ""
        | some latest => latest.value)
    some (.event aliasAddress event)

/-- The publications emitted for one updated output ID by the loop body of
`PublishUpdatedOutputValues` (PublishUpdates.go:42-75): resolve the latest
value, the output and its owning node (any failure publishes nothing),
then gate each publication form on the node's config booleans, with
defaults raw/latest/history = true and event = false. -/
def publishOneOutputValue (registeredNodes : List NodeDiscoveryMessage)
    (regOutputs : RegisteredOutputs)
    (regOutputValues : RegisteredOutputValues) (outputID : String) :
    List OutputPublication :=
  let latestValue := GetOutputValueByID regOutputValues outputID
  let output := GetOutputByID regOutputs outputID
  let node := output.bind fun o => GetNodeByHWID registeredNodes o.nodeHWID
  match output, node, latestValue with
  | some output, some node, some latestValue =>
    (if (GetNodeConfigBool registeredNodes node.address
          NodeAttrPublishRaw true).1 then
        [.raw output latestValue.value] else [])
    ++ (if (GetNodeConfigBool registeredNodes node.address
          NodeAttrPublishLatest true).1 then
        [.latest output latestValue] else [])
    ++ (if (GetNodeConfigBool registeredNodes node.address
          NodeAttrPublishHistory true).1 then
        [.history output (GetHistory regOutputValues outputID)] else [])
    ++ (if (GetNodeConfigBool registeredNodes node.address
          NodeAttrPublishEvent false).1 then
        match PublishOutputEvent node regOutputs regOutputValues with
        | none => []
        | some e => [e]
      else [])
  | _, _, _ => []

/-- Embeds `PublishUpdatedOutputValues` (PublishUpdates.go:37-76) as the
trace of publications over the list of updated output IDs. -/
def PublishUpdatedOutputValues (registeredNodes : List NodeDiscoveryMessage)
    (regOutputs : RegisteredOutputs)
    (regOutputValues : RegisteredOutputValues)
    (updatedOutputIDs : List String) : List OutputPublication :=
  updatedOutputIDs.flatMap
    (publishOneOutputValue registeredNodes regOutputs regOutputValues)

/-! ## Publication ordering within one heartbeat tick
(publisher/PublishUpdates.go:17-33 and Publisher.go:317-320) -/

/-- The four publication classes a heartbeat tick emits, in source
order. -/
inductive PublicationKind where
  | nodeDiscovery
  | inputDiscovery
  | outputDiscovery
  | outputValue
deriving DecidableEq, Repr

/-- Position of each publication class in the tick's fixed emission
order. -/
def kindRank : PublicationKind → Nat
  | .nodeDiscovery => 0
  | .inputDiscovery => 1
  | .outputDiscovery => 2
  | .outputValue => 3

/-- A label identifying the entity of an output-value publication in the
tick trace. -/
def outputPublicationLabel : OutputPublication → String
  | .raw o _ => o.outputID
  | .latest o _ => o.outputID
  | .history o _ => o.outputID
  | .event a _ => a

/-- Embeds `PublishUpdates` (PublishUpdates.go:17-33): one heartbeat
tick's publication trace, draining nodes, then inputs, then outputs, then
output values — the same order as the four calls in `heartbeatLoop`
(Publisher.go:317-320).  The node and input registries are not part of
the snapshot, so their drained update lists are parameters
(`updatedNodes`, `updatedInputs`), as is the drained output-value ID list
(`updatedValueIDs`); the output registry is drained through
`GetUpdatedOutputs` itself.  Returns the trace and the output registry
after the drain. -/
def PublishUpdates (updatedNodes updatedInputs : List String)
    (registeredNodes : List NodeDiscoveryMessage)
    (regOutputs : RegisteredOutputs)
    (regOutputValues : RegisteredOutputValues)
    (updatedValueIDs : List String) :
    List (PublicationKind × String) × RegisteredOutputs :=
  let drained := GetUpdatedOutputs regOutputs true
  (updatedNodes.map (fun n => (PublicationKind.nodeDiscovery, n))
    ++ updatedInputs.map (fun i => (PublicationKind.inputDiscovery, i))
    ++ drained.1.map (fun o => (PublicationKind.outputDiscovery, o.outputID))
    ++ (PublishUpdatedOutputValues registeredNodes drained.2 regOutputValues
        updatedValueIDs).map
      (fun p => (PublicationKind.outputValue, outputPublicationLabel p)),
    drained.2)

/-! ## Alias address resolution (publisher/output.go:41-54, iotzone era) -/

/-- `standard.AttrNameAlias`: the config key holding a node's alias. -/
def AttrNameAlias : String := "alias"

/-- Embeds `getAliasAddress` (output.go:41-54).  `getNode` abstracts
`ThisPublisherState.getNode` (its source is not in the snapshot): the
node addressed by the given address, if any.  When the node exists and
has a non-empty alias config value, the address is split on `/`, its
third segment (index 2, the nodeID slot) is replaced by the alias and the
parts are re-joined; otherwise the address is returned unchanged.  The Go
`parts[2] = ...` panics on an address of fewer than three segments;
`List.set` is total, so theorems assume the well-formed-address bound the
address grammar guarantees for resolvable addresses. -/
def getAliasAddress (getNode : String → Option NodeDiscoveryMessage)
    (address : String) : String :=
  match getNode address with
  | none => address
  | some node =>
    match alLookup node.config AttrNameAlias with
    | none => address
    | some aliasConfig =>
      if aliasConfig.value = "" then address
      else
        let parts := splitSlash address
        let parts := parts.set 2 aliasConfig.value
        String.intercalate "/" parts

/-! ## Message signing and publication (publisher/output.go:23-36,120-134,
iotzone era) -/

/-- Embeds `ecdsaSign` (output.go:25-36) over an abstract private-key type
`K`.  `sign k m` abstracts the composite of SHA-256 hashing,
`ecdsa.Sign`, ASN.1 marshalling and base64 encoding; `none` models an
`ecdsa.Sign` error.  A nil key or a signing error yields the empty
string, never an error value. -/
def ecdsaSign {K : Type} (signPrivateKey : Option K)
    (sign : K → String → Option String) (message : String) : String :=
  match signPrivateKey with
  | none => ""
  | some k =>
    match sign k message with
    | none => ""
    | some sig => sig

/-- The `messenger.Publication` envelope `{Message, Signature}` built by
`publishMessage`. -/
structure Publication where
  message : String
  signature : String
deriving DecidableEq, Repr

/-- Embeds `publishMessage` (output.go:121-134): marshal the message
object (`marshal`, abstracting `json.MarshalIndent`; `none` = marshal
error, in which case nothing is published), sign the buffer with
`ecdsaSign`, and publish the envelope on the address.  The result is the
published `(address, Publication)` pair, or `none` when nothing was
handed to the messenger. -/
def publishMessage {K α : Type} (signPrivateKey : Option K)
    (sign : K → String → Option String) (marshal : α → Option String)
    (address : String) (message : α) : Option (String × Publication) :=
  match marshal message with
  | none => none
  | some buffer =>
    some (address,
      { message := buffer
        signature := ecdsaSign signPrivateKey sign buffer })

/-! ## Concrete fixtures for the trust-directory claims -/

/-- Fixture: the identity body of a DSS carrying signing key `DSSKEY`. -/
def c1DSSIdentity : PublisherIdentity :=
  { domain := "test", publisherID := "$dss", publicSigning := "DSSKEY",
    publicEncryption := "DSSENC", issuer := "$dss",
    validFrom := "2020-01-01", validUntil := "2030-01-01" }

/-- Fixture: the DSS identity message published on `test/$dss/$identity`. -/
def c1DSSMsg : PublisherIdentityMessage :=
  { address := "test/$dss/$identity", publisherID := "$dss",
    identity := c1DSSIdentity, identitySignature := "selfsig",
    signerAddress := "test/$dss/$identity", timestamp := "2020-01-02" }

/-- Fixture: a freshly started publisher in domain `test` with JWS signing
required and an empty trust directory. -/
def c1Start : PubState :=
  { domain := "test", signingMethod := SigningMethodJWS,
    domainPublishers := [] }

/-- The publisher state after `handlePublisherDiscovery` receives the DSS
identity message as a signed envelope (crypto collaborators instantiated
arbitrarily; they are not reached on this path). -/
def c1After : PubState :=
  handlePublisherDiscovery (fun _ _ _ => true) (fun _ => some "{}") id
    c1Start "test/$dss/$identity" (.jws (some c1DSSMsg) "envsig")

/-- Fixture: the identity body of a non-DSS publisher `pub2` with embedded
signing key `PUB2KEY`. -/
def c2Identity : PublisherIdentity :=
  { domain := "test", publisherID := "pub2", publicSigning := "PUB2KEY",
    publicEncryption := "PUB2ENC", issuer := "pub2",
    validFrom := "2020-01-01", validUntil := "2030-01-01" }

/-- Fixture: the identity message of `pub2` on `test/pub2/$identity`. -/
def c2Msg : PublisherIdentityMessage :=
  { address := "test/pub2/$identity", publisherID := "pub2",
    identity := c2Identity, identitySignature := "",
    signerAddress := "test/pub2/$identity", timestamp := "2020-01-03" }

/-- Fixture: publisher state with no DSS signing key known. -/
def c2Start : PubState :=
  { domain := "test", signingMethod := SigningMethodJWS,
    domainPublishers := [] }

/-- The state after receiving `pub2`'s identity in a JWS envelope whose
signature verifies against nothing: the ECDSA-verification collaborator is
instantiated as constantly false, so in this instantiation no signature —
in particular the envelope's, against the key embedded in the identity —
is valid. -/
def c2After : PubState :=
  handlePublisherDiscovery (fun _ _ _ => false) (fun _ => some "{}") id
    c2Start "test/pub2/$identity" (.jws (some c2Msg) "badEnvelopeSig")

/-- Fixture for the DSS-known scenario: directory already holding the DSS
identity (stored directly, as the discovery handler cannot store it). -/
def c3St : PubState :=
  { domain := "test", signingMethod := SigningMethodJWS,
    domainPublishers := [("test/$dss/$identity", c1DSSMsg)] }

/-- Fixture: a registered switch output of node `node1`. -/
def c6Output : OutputDiscoveryMessage :=
  { address := "test/pub1/node1/$output/switch/0", timestamp := "T0",
    nodeHWID := "node1", instanceID := "0", outputID := "node1.switch.0",
    outputType := "switch", publisherID := "pub1" }

/-- Fixture: an output registry already holding `c6Output` with its
updated set drained. -/
def c6Reg : RegisteredOutputs :=
  { addressMap := [("test/pub1/node1/$output/switch/0", "node1.switch.0")],
    domain := "test", publisherID := "pub1",
    outputsByID := [("node1.switch.0", c6Output)],
    updatedOutputIDs := none }

/-- The publication gate as the spec words it (§4.8): the node's
configured boolean for the attribute when one is set, the default
otherwise; an unparseable configured value also falls back to the
default, per the typed-accessor contract (§4.4). -/
def specConfigGate (node : NodeDiscoveryMessage) (attr : String)
    (d : Bool) : Bool :=
  match alLookup node.config attr with
  | none => d
  | some c => (parseBool c.value).getD d

/-- Fixture: a node `node1` with `publishRaw` configured off and
`publishEvent` configured on; `publishLatest`/`publishHistory` unset. -/
def c7Node : NodeDiscoveryMessage :=
  { address := "test/pub1/node1/$node", hwID := "node1",
    config := [("publishRaw", { value := "false" }),
      ("publishEvent", { value := "true" })] }

/-- Fixture: the switch output of `node1` for the value-publication
claims. -/
def c7Output : OutputDiscoveryMessage :=
  { address := "test/pub1/node1/$output/switch/0", timestamp := "T0",
    nodeHWID := "node1", instanceID := "0", outputID := "node1.switch.0",
    outputType := "switch", publisherID := "pub1" }

/-- Fixture: the output registry holding `c7Output`. -/
def c7Reg : RegisteredOutputs :=
  { addressMap := [("test/pub1/node1/$output/switch/0", "node1.switch.0")],
    domain := "test", publisherID := "pub1",
    outputsByID := [("node1.switch.0", c7Output)],
    updatedOutputIDs := none }

/-- Fixture: one stored value `on` for the switch output. -/
def c7Vals : RegisteredOutputValues :=
  [("node1.switch.0", [{ value := "on", timestamp := "T0" }])]

/-- Fixture: the node registry holding only `c7Node`. -/
def c7Nodes : List NodeDiscoveryMessage := [c7Node]

/-- Fixture: node `node1` whose alias config value is `alias1`. -/
def c9Node : NodeDiscoveryMessage :=
  { address := "test/pub1/node1/$value/switch/0", hwID := "node1",
    config := [("alias", { value := "alias1" })] }

/-- Fixture: a node lookup resolving exactly the fixture address. -/
def c9GetNode : String → Option NodeDiscoveryMessage :=
  fun a =>
    if a = "test/pub1/node1/$value/switch/0" then some c9Node else none

/-! ## Theorems -/

/-- C1: the spec says a first-seen DSS identity is accepted and stored so
that the DSS signing key becomes retrievable at the DSS address.  The code
(`handleDSSDiscovery`, handlepublisher.go:36-45) declares a local
`dssIdentity`, never assigns the received message to it, and stores the
nil local; after receiving the DSS identity the signing-key lookup at the
DSS address still yields nothing rather than the carried key `DSSKEY` —
which storing the received message would have produced. -/
theorem c1_dss_identity_never_stored :
    GetPublisherSigningKey c1After.domainPublishers (dssAddress "test")
        = none
      ∧ GetPublisherSigningKey
          (UpdatePublisher c1Start.domainPublishers (some c1DSSMsg))
          (dssAddress "test") = some "DSSKEY" :=
  ⟨rfl, rfl⟩

/-- C2: the claim says that with no DSS key known, an identity whose signed
envelope does not verify against the embedded key leaves the trust
directory unchanged.  The code takes the payload with
`UnsafePayloadWithoutVerification` and never verifies the envelope
(handlepublisher.go:74): with the ECDSA verifier instantiated as constantly
false (no signature valid for any key), the identity is stored anyway and
the directory changes. -/
theorem c2_unverified_envelope_still_stored :
    c2After.domainPublishers = [("test/pub2/$identity", c2Msg)]
      ∧ c2After ≠ c2Start :=
  ⟨rfl, by decide⟩

/-- C3: with a DSS signing key known, a parsed non-DSS identity message is
stored in the trust directory exactly when `VerifyEcdsaSignature` accepts
its `identitySignature` over the base64url-encoded JSON serialization of
the identity body under the DSS key; otherwise the state is unchanged
(handlepublisher.go:100-117). -/
theorem c3_dss_signature_gates_storage
    (verifyEcdsa : String → String → String → Bool)
    (serializeIdentity : PublisherIdentity → Option String)
    (base64url : String → String)
    (st : PubState) (address : String)
    (msg : PublisherIdentityMessage) (envSig : String)
    (identityAsJSON : String) (dssSigningKey : String)
    (hAddr : address ≠ dssAddress st.domain)
    (hKey : GetPublisherSigningKey st.domainPublishers (dssAddress st.domain)
      = some dssSigningKey)
    (hSer : serializeIdentity msg.identity = some identityAsJSON) :
    handlePublisherDiscovery verifyEcdsa serializeIdentity base64url st
        address (.jws (some msg) envSig) =
      if verifyEcdsa (base64url identityAsJSON) msg.identitySignature
          dssSigningKey then
        { st with domainPublishers :=
            UpdatePublisher st.domainPublishers (some msg) }
      else st := by
  simp [handlePublisherDiscovery, hAddr, hKey, hSer]

/-- Witness for C3 at a concrete input: with the DSS identity stored and a
constantly-accepting verifier, `pub2`'s identity message ends up stored. -/
theorem c3_dss_signature_gates_storage_witness :
    handlePublisherDiscovery (fun _ _ _ => true) (fun _ => some "{}") id
        c3St "test/pub2/$identity" (.jws (some c2Msg) "env") =
      { c3St with domainPublishers :=
          UpdatePublisher c3St.domainPublishers (some c2Msg) } := by
  have h := c3_dss_signature_gates_storage (fun _ _ _ => true)
    (fun _ => some "{}") id c3St "test/pub2/$identity" c2Msg "env" "{}"
    "DSSKEY" (by decide) (by decide) rfl
  simpa using h

/-- C4: an inbound node-configure message that is unsigned, fails
signature verification, or addresses no registered node is dropped by
`handleNodeConfigCommand` with no registry mutation (handleconfig.go:21-37),
for every semantics of the verification and registry collaborators. -/
theorem c4_unverified_config_command_no_mutation
    {Registry Node : Type}
    (verifySender : String → VerifySenderResult)
    (getNodeByAddress : Registry → String → Option Node)
    (setNodeConfigValues : Registry → String → NodeAttrMap → Registry)
    (onNodeConfigHandler :
      Option (Node → Option NodeAttrMap → Option NodeAttrMap))
    (reg : Registry) (address : String) (message : String)
    (hDrop : (verifySender message).isSigned = false
      ∨ ((verifySender message).err).isSome
      ∨ getNodeByAddress reg address = none) :
    handleNodeConfigCommand verifySender getNodeByAddress
      setNodeConfigValues onNodeConfigHandler reg address message = reg := by
  unfold handleNodeConfigCommand
  rcases hDrop with h | h | h
  · simp [h]
  · simp [h]
  · simp [h]

/-- Witness for C4 at a concrete input: an unsigned message leaves a
`Nat`-valued registry untouched even though the mutator increments. -/
theorem c4_unverified_config_command_no_mutation_witness :
    handleNodeConfigCommand (fun _ => ⟨false, none, none⟩)
      (fun _ _ => (none : Option Unit)) (fun r _ _ => r + 1) none
      (0 : Nat) "test/publisher1/node1/$configure" "msg" = 0 :=
  c4_unverified_config_command_no_mutation
    (fun _ => ⟨false, none, none⟩) (fun _ _ => (none : Option Unit))
    (fun r _ _ => r + 1) none 0 "test/publisher1/node1/$configure" "msg"
    (Or.inl rfl)

/-- C5: on a verified configure message for a known node, with a config
handler registered, the decoded attribute map is passed through the
handler and exactly the handler's returned map is applied via
`SetNodeConfigValues`; a nil handler result applies nothing
(handleconfig.go:39-47). -/
theorem c5_config_callback_filters_params
    {Registry Node : Type}
    (verifySender : String → VerifySenderResult)
    (getNodeByAddress : Registry → String → Option Node)
    (setNodeConfigValues : Registry → String → NodeAttrMap → Registry)
    (handler : Node → Option NodeAttrMap → Option NodeAttrMap)
    (reg : Registry) (address : String) (message : String) (node : Node)
    (hSigned : (verifySender message).isSigned = true)
    (hErr : (verifySender message).err = none)
    (hNode : getNodeByAddress reg address = some node)
    (hMsg : message ≠ "") :
    handleNodeConfigCommand verifySender getNodeByAddress
        setNodeConfigValues (some handler) reg address message =
      match handler node (verifySender message).decodedAttr with
      | none => reg
      | some p => setNodeConfigValues reg address p := by
  unfold handleNodeConfigCommand
  simp [hSigned, hErr, hNode, hMsg]

/-- Witness for C5 at a concrete input: a handler that returns
`[("name", "bob")]` makes exactly that map reach the mutator. -/
theorem c5_config_callback_filters_params_witness :
    handleNodeConfigCommand
        (fun _ => ⟨true, none, some [("name", "alice")]⟩)
        (fun _ _ => some ()) (fun r a p => (a, p) :: r)
        (some fun _ _ => some [("name", "bob")])
        ([] : List (String × NodeAttrMap))
        "test/publisher1/node1/$configure" "msg" =
      [("test/publisher1/node1/$configure", [("name", "bob")])] := by
  have h := c5_config_callback_filters_params
    (fun _ => ⟨true, none, some [("name", "alice")]⟩)
    (fun _ _ => some ()) (fun r a p => (a, p) :: r)
    (fun _ _ => some [("name", "bob")])
    ([] : List (String × NodeAttrMap))
    "test/publisher1/node1/$configure" "msg" () rfl rfl rfl (by decide)
  simpa using h

/-- A successful association-list lookup finds a stored pair. -/
theorem alLookup_mem {V : Type} {m : List (String × V)} {k : String}
    {v : V} (hl : alLookup m k = some v) : (k, v) ∈ m := by
  induction m with
  | nil => simp [alLookup] at hl
  | cons kv rest ih =>
    rcases kv with ⟨k', v'⟩
    by_cases hk : k' = k
    · subst hk
      simp [alLookup] at hl
      simp [hl]
    · simp only [alLookup, if_neg hk] at hl
      exact List.mem_cons_of_mem _ (ih hl)

/-- `alInsert` preserves a pointwise property of the stored pairs. -/
theorem alInsert_pairwise {V : Type} {P : String × V → Prop}
    {m : List (String × V)} {k : String} {v : V}
    (hm : ∀ kv ∈ m, P kv) (hv : P (k, v)) :
    ∀ kv ∈ alInsert m k v, P kv := by
  induction m with
  | nil => simpa [alInsert]
  | cons kv' rest ih =>
    rcases kv' with ⟨k', v'⟩
    by_cases hk : k' = k
    · subst hk
      simp only [alInsert, if_pos rfl]
      intro kv hkv
      rcases List.mem_cons.1 hkv with h | h
      · exact h ▸ hv
      · exact hm _ (List.mem_cons_of_mem _ h)
    · simp only [alInsert, if_neg hk]
      intro kv hkv
      rcases List.mem_cons.1 hkv with h | h
      · exact h ▸ hm _ (List.mem_cons_self _ _)
      · exact ih (fun kv h => hm _ (List.mem_cons_of_mem _ h)) kv h

/-- Looking up the freshly inserted key yields the inserted value. -/
theorem alLookup_alInsert_self {V : Type} (m : List (String × V))
    (k : String) (v : V) : alLookup (alInsert m k v) k = some v := by
  induction m with
  | nil => simp [alInsert, alLookup]
  | cons kv rest ih =>
    rcases kv with ⟨k', v'⟩
    by_cases hk : k' = k
    · subst hk
      simp [alInsert, alLookup]
    · simp [alInsert, alLookup, hk, ih]

/-- The inserted ID is a member of the updated set. -/
theorem mem_idInsert_self (l : List String) (k : String) :
    k ∈ idInsert l k := by
  by_cases h : k ∈ l <;> simp [idInsert, h]

/-- Set-insert preserves duplicate-freedom of the ID set. -/
theorem nodup_idInsert {l : List String} (k : String) (hl : l.Nodup) :
    (idInsert l k).Nodup := by
  by_cases h : k ∈ l
  · simpa [idInsert, h] using hl
  · rw [idInsert, if_neg h]
    exact List.nodup_cons.2 ⟨h, hl⟩

/-- IDs other than `oid` resolve, under the key-consistency invariant, to
outputs with other IDs, so filtering the drained list for `oid` drops all
of them. -/
theorem c6_filter_not_mem {m : List (String × OutputDiscoveryMessage)}
    {oid : String} (hm : ∀ kv ∈ m, kv.2.outputID = kv.1)
    {ids : List String} (hmem : oid ∉ ids) :
    (ids.filterMap (alLookup m)).filter
      (fun u => u.outputID = oid) = [] := by
  induction ids with
  | nil => simp
  | cons a t ih =>
    have ha : a ≠ oid := fun h => hmem (h ▸ List.mem_cons_self _ _)
    have ht : oid ∉ t := fun h => hmem (List.mem_cons_of_mem _ h)
    rcases hla : alLookup m a with _ | v
    · simpa [hla] using ih ht
    · have hv : v.outputID = a := hm _ (alLookup_mem hla)
      simp [hla, List.filter_cons, hv, ha, ih ht]

/-- Under the key-consistency invariant, a dup-free updated-ID set
containing `oid` drains to a list holding the output stored at `oid`
exactly once. -/
theorem c6_filter_once {m : List (String × OutputDiscoveryMessage)}
    {oid : String} {o : OutputDiscoveryMessage}
    (hm : ∀ kv ∈ m, kv.2.outputID = kv.1)
    (hlook : alLookup m oid = some o)
    {ids : List String} (hnd : ids.Nodup) (hmem : oid ∈ ids) :
    ((ids.filterMap (alLookup m)).filter
      (fun u => u.outputID = oid)).length = 1 := by
  induction ids with
  | nil => simp at hmem
  | cons a t ih =>
    have hnd' : t.Nodup := (List.nodup_cons.1 hnd).2
    by_cases ha : a = oid
    · subst ha
      have hnt : a ∉ t := (List.nodup_cons.1 hnd).1
      have ho : o.outputID = a := hm _ (alLookup_mem hlook)
      simp [hlook, List.filter_cons, ho, c6_filter_not_mem hm hnt]
    · have hmt : oid ∈ t := by
        rcases List.mem_cons.1 hmem with h | h
        · exact absurd h.symm ha
        · exact h
      rcases hla : alLookup m a with _ | v
      · simpa [hla] using ih hnd' hmt
      · have hv : v.outputID = a := hm _ (alLookup_mem hla)
        have hne : v.outputID = oid ↔ False := by simp [hv, ha]
        simp [hla, List.filter_cons, hv, ha, ih hnd' hmt]

/-- C6 counterexample: re-registering an already-registered output with an
unchanged timestamp changes nothing observable — both lookup maps are
unchanged — yet `updateOutput` (RegisteredOutputs.go:132-144) adds the
output to the updated set unconditionally, so it appears in the next
`GetUpdatedOutputs(true)`. -/
theorem c6_no_change_still_marks_updated :
    (UpdateOutput c6Reg "T0" (some c6Output)).outputsByID =
        c6Reg.outputsByID
      ∧ (UpdateOutput c6Reg "T0" (some c6Output)).addressMap =
        c6Reg.addressMap
      ∧ (GetUpdatedOutputs c6Reg true).1 = []
      ∧ (GetUpdatedOutputs (UpdateOutput c6Reg "T0" (some c6Output)) true).1
        = [c6Output] := by
  refine ⟨rfl, rfl, rfl, rfl⟩

/-- C6 (amended): every `UpdateOutput` call marks the output updated
unconditionally — whether or not anything observable changed — and the
output then appears exactly once in the next `GetUpdatedOutputs(true)`,
an immediately following call returning the empty list. -/
theorem c6_update_marks_exactly_once
    (reg : RegisteredOutputs) (now : String)
    (output : OutputDiscoveryMessage)
    (hnd : (reg.updatedOutputIDs.getD []).Nodup)
    (hinv : ∀ kv ∈ reg.outputsByID, kv.2.outputID = kv.1) :
    (((GetUpdatedOutputs (UpdateOutput reg now (some output)) true).1.filter
        (fun u => u.outputID = output.outputID)).length = 1)
      ∧ (GetUpdatedOutputs
          (GetUpdatedOutputs (UpdateOutput reg now (some output)) true).2
          true).1 = [] := by
  set o' : OutputDiscoveryMessage := { output with timestamp := now } with ho'
  have hkey : o'.outputID = output.outputID := rfl
  set reg' := UpdateOutput reg now (some output) with hreg'
  have hupd : reg'.updatedOutputIDs =
      some (idInsert (reg.updatedOutputIDs.getD []) output.outputID) := rfl
  have hby : reg'.outputsByID =
      alInsert reg.outputsByID output.outputID o' := rfl
  have hinv' : ∀ kv ∈ reg'.outputsByID, kv.2.outputID = kv.1 := by
    rw [hby]
    exact alInsert_pairwise hinv hkey
  have hlook : alLookup reg'.outputsByID output.outputID = some o' := by
    rw [hby]
    exact alLookup_alInsert_self _ _ _
  constructor
  · have h1 : (GetUpdatedOutputs reg' true).1 =
        (idInsert (reg.updatedOutputIDs.getD []) output.outputID).filterMap
          (alLookup reg'.outputsByID) := by
      simp [GetUpdatedOutputs, hupd]
    rw [h1]
    exact c6_filter_once hinv' hlook
      (nodup_idInsert _ hnd) (mem_idInsert_self _ _)
  · have h2 : (GetUpdatedOutputs reg' true).2 =
        { reg' with updatedOutputIDs := none } := by
      simp [GetUpdatedOutputs, hupd]
    rw [h2]
    simp [GetUpdatedOutputs]

/-- Witness for the amended C6 at a concrete input: updating the fixture
output in the fixture registry yields it exactly once in the drain, and
the next drain is empty. -/
theorem c6_update_marks_exactly_once_witness :
    (((GetUpdatedOutputs (UpdateOutput c6Reg "T1" (some c6Output)) true).1.filter
        (fun u => u.outputID = c6Output.outputID)).length = 1)
      ∧ (GetUpdatedOutputs
          (GetUpdatedOutputs (UpdateOutput c6Reg "T1" (some c6Output)) true).2
          true).1 = [] :=
  c6_update_marks_exactly_once c6Reg "T1" c6Output (by decide) (by decide)

/-- When the address lookup resolves to the node, the registry's typed
accessor computes exactly the spec-worded gate. -/
theorem getNodeConfigBool_fst {registeredNodes : List NodeDiscoveryMessage}
    {node : NodeDiscoveryMessage}
    (hfind : registeredNodes.find? (fun n => n.address = node.address)
      = some node) (attr : String) (d : Bool) :
    (GetNodeConfigBool registeredNodes node.address attr d).1 =
      specConfigGate node attr d := by
  cases hc : alLookup node.config attr with
  | none => simp [GetNodeConfigBool, specConfigGate, hfind, hc]
  | some c =>
    cases hb : parseBool c.value <;>
      simp [GetNodeConfigBool, specConfigGate, hfind, hc, hb]

/-- C7: for an updated output whose output record, owning node and latest
value all resolve, `PublishUpdatedOutputValues`'s loop body publishes the
raw, latest and history forms exactly when the node's `publishRaw`,
`publishLatest`, `publishHistory` config booleans hold (default true when
unset), and the event form exactly when `publishEvent` holds (default
false) — PublishUpdates.go:42-75. -/
theorem c7_output_value_publication_gates
    (registeredNodes : List NodeDiscoveryMessage)
    (regOutputs : RegisteredOutputs)
    (regOutputValues : RegisteredOutputValues)
    (outputID : String) (output : OutputDiscoveryMessage)
    (node : NodeDiscoveryMessage) (lv : OutputValue)
    (hout : GetOutputByID regOutputs outputID = some output)
    (hnode : GetNodeByHWID registeredNodes output.nodeHWID = some node)
    (hlv : GetOutputValueByID regOutputValues outputID = some lv)
    (haddr : registeredNodes.find? (fun n => n.address = node.address)
      = some node) :
    (OutputPublication.raw output lv.value ∈
        publishOneOutputValue registeredNodes regOutputs regOutputValues
          outputID
      ↔ specConfigGate node NodeAttrPublishRaw true = true)
    ∧ (OutputPublication.latest output lv ∈
        publishOneOutputValue registeredNodes regOutputs regOutputValues
          outputID
      ↔ specConfigGate node NodeAttrPublishLatest true = true)
    ∧ (OutputPublication.history output (GetHistory regOutputValues outputID)
        ∈ publishOneOutputValue registeredNodes regOutputs regOutputValues
          outputID
      ↔ specConfigGate node NodeAttrPublishHistory true = true)
    ∧ ((∃ ev, OutputPublication.event
          (ReplaceMessageType node.address MessageTypeEvent) ev ∈
          publishOneOutputValue registeredNodes regOutputs regOutputValues
            outputID)
      ↔ specConfigGate node NodeAttrPublishEvent false = true) := by
  have hhw : node.hwID = output.nodeHWID := by
    have h := List.find?_some hnode
    simpa using h
  have hmem : output ∈ GetOutputsByNodeHWID regOutputs node.hwID := by
    unfold GetOutputsByNodeHWID
    exact List.mem_filterMap.2 ⟨(outputID, output), alLookup_mem hout,
      by simp [hhw]⟩
  have hne : (GetOutputsByNodeHWID regOutputs node.hwID).isEmpty = false := by
    cases h : GetOutputsByNodeHWID regOutputs node.hwID with
    | nil => rw [h] at hmem; simp at hmem
    | cons a t => simp [h]
  have hev : PublishOutputEvent node regOutputs regOutputValues =
      some (.event (ReplaceMessageType node.address MessageTypeEvent)
        ((GetOutputsByNodeHWID regOutputs node.hwID).map fun output =>
          (output.outputType ++ "/" ++ output.instanceID,
            match GetOutputValueByID regOutputValues output.outputID with
            | none => ""
            | some latest => latest.value))) := by
    unfold PublishOutputEvent
    simp [hne]
  have hg := fun attr d => getNodeConfigBool_fst haddr attr d
  have hpubs : publishOneOutputValue registeredNodes regOutputs
      regOutputValues outputID =
      (if specConfigGate node NodeAttrPublishRaw true then
        [.raw output lv.value] else [])
      ++ (if specConfigGate node NodeAttrPublishLatest true then
        [.latest output lv] else [])
      ++ (if specConfigGate node NodeAttrPublishHistory true then
        [.history output (GetHistory regOutputValues outputID)] else [])
      ++ (if specConfigGate node NodeAttrPublishEvent false then
        [.event (ReplaceMessageType node.address MessageTypeEvent)
          ((GetOutputsByNodeHWID regOutputs node.hwID).map fun output =>
            (output.outputType ++ "/" ++ output.instanceID,
              match GetOutputValueByID regOutputValues output.outputID with
              | none => ""
              | some latest => latest.value))] else []) := by
    have hb : (some output).bind
        (fun o => GetNodeByHWID registeredNodes o.nodeHWID) = some node :=
      hnode
    simp only [publishOneOutputValue]
    rw [hout, hlv, hb]
    simp only [hg, hev]
  rw [hpubs]
  refine ⟨?_, ?_, ?_, ?_⟩ <;>
    rcases specConfigGate node NodeAttrPublishRaw true <;>
    rcases specConfigGate node NodeAttrPublishLatest true <;>
    rcases specConfigGate node NodeAttrPublishHistory true <;>
    rcases specConfigGate node NodeAttrPublishEvent false <;>
    simp

/-- Witness for C7 at a concrete input: with `publishRaw` configured
`false`, `publishEvent` configured `true` and the other gates unset, the
gate equivalences hold for the fixture output and value. -/
theorem c7_output_value_publication_gates_witness :
    (OutputPublication.raw c7Output "on" ∈
        publishOneOutputValue c7Nodes c7Reg c7Vals "node1.switch.0"
      ↔ specConfigGate c7Node NodeAttrPublishRaw true = true)
    ∧ (OutputPublication.latest c7Output { value := "on", timestamp := "T0" }
        ∈ publishOneOutputValue c7Nodes c7Reg c7Vals "node1.switch.0"
      ↔ specConfigGate c7Node NodeAttrPublishLatest true = true)
    ∧ (OutputPublication.history c7Output (GetHistory c7Vals "node1.switch.0")
        ∈ publishOneOutputValue c7Nodes c7Reg c7Vals "node1.switch.0"
      ↔ specConfigGate c7Node NodeAttrPublishHistory true = true)
    ∧ ((∃ ev, OutputPublication.event
          (ReplaceMessageType c7Node.address MessageTypeEvent) ev ∈
          publishOneOutputValue c7Nodes c7Reg c7Vals "node1.switch.0")
      ↔ specConfigGate c7Node NodeAttrPublishEvent false = true) :=
  c7_output_value_publication_gates c7Nodes c7Reg c7Vals "node1.switch.0"
    c7Output c7Node { value := "on", timestamp := "T0" } rfl rfl rfl rfl

/-- Elements of a mapped chunk all carry the publication kind the map
attaches. -/
theorem fst_of_mem_map {β : Type} {l : List β}
    {g : β → PublicationKind × String} {k : PublicationKind}
    (hg : ∀ x, (g x).1 = k) : ∀ a ∈ l.map g, a.1 = k := by
  intro a ha
  rcases List.mem_map.1 ha with ⟨x, _, rfl⟩
  exact hg x

/-- A four-chunk trace with per-chunk publication kinds is sorted by
`kindRank`. -/
theorem pairwise_rank_append₄
    {L₁ L₂ L₃ L₄ : List (PublicationKind × String)}
    (h₁ : ∀ a ∈ L₁, a.1 = PublicationKind.nodeDiscovery)
    (h₂ : ∀ a ∈ L₂, a.1 = PublicationKind.inputDiscovery)
    (h₃ : ∀ a ∈ L₃, a.1 = PublicationKind.outputDiscovery)
    (h₄ : ∀ a ∈ L₄, a.1 = PublicationKind.outputValue) :
    List.Pairwise (fun a b => kindRank a.1 ≤ kindRank b.1)
      (L₁ ++ L₂ ++ L₃ ++ L₄) := by
  have hrank : ∀ a ∈ L₁ ++ L₂ ++ L₃ ++ L₄, ∀ b ∈ L₄,
      kindRank a.1 ≤ kindRank b.1 := by
    intro a _ b hb
    rw [h₄ b hb]
    rcases a with ⟨k, s⟩
    cases k <;> simp [kindRank]
  refine List.pairwise_append.2 ⟨?_, ?_, ?_⟩
  · refine List.pairwise_append.2 ⟨?_, ?_, ?_⟩
    · refine List.pairwise_append.2 ⟨?_, ?_, ?_⟩
      · exact List.pairwise_of_forall_mem_list fun a ha b hb => by
          rw [h₁ a ha, h₁ b hb]
      · exact List.pairwise_of_forall_mem_list fun a ha b hb => by
          rw [h₂ a ha, h₂ b hb]
      · intro a ha b hb
        rw [h₁ a ha, h₂ b hb]
        simp [kindRank]
    · exact List.pairwise_of_forall_mem_list fun a ha b hb => by
        rw [h₃ a ha, h₃ b hb]
    · intro a ha b hb
      rw [h₃ b hb]
      rcases List.mem_append.1 ha with h | h
      · rw [h₁ a h]; simp [kindRank]
      · rw [h₂ a h]; simp [kindRank]
  · exact List.pairwise_of_forall_mem_list fun a ha b hb => by
      rw [h₄ a ha, h₄ b hb]
  · intro a ha b hb
    exact hrank a (List.mem_append_left _ ha) b hb

/-- C8: within one heartbeat tick the publication trace of
`PublishUpdates` (PublishUpdates.go:17-33; the same order as the four
calls in `heartbeatLoop`, Publisher.go:317-320) is sorted by publication
class: updated nodes first, then updated inputs, then updated outputs,
then updated output values. -/
theorem c8_tick_publication_order (updatedNodes updatedInputs : List String)
    (registeredNodes : List NodeDiscoveryMessage)
    (regOutputs : RegisteredOutputs)
    (regOutputValues : RegisteredOutputValues)
    (updatedValueIDs : List String) :
    List.Pairwise (fun a b => kindRank a.1 ≤ kindRank b.1)
      (PublishUpdates updatedNodes updatedInputs registeredNodes regOutputs
        regOutputValues updatedValueIDs).1 := by
  refine pairwise_rank_append₄ ?_ ?_ ?_ ?_
  · exact fst_of_mem_map fun x => rfl
  · exact fst_of_mem_map fun x => rfl
  · exact fst_of_mem_map fun x => rfl
  · exact fst_of_mem_map fun x => rfl

/-- C9: `getAliasAddress` (output.go:41-54) returns its input unchanged
when the addressed node is missing, has no alias config entry, or has an
empty alias value; otherwise it joins the slash-split segments with
exactly the third segment (index 2, the nodeID slot) replaced by the
alias and every other segment unchanged.  The length hypothesis reflects
the address grammar's well-formedness, without which the Go indexing
would panic. -/
theorem c9_alias_address_replacement
    (getNode : String → Option NodeDiscoveryMessage) (address : String) :
    (getNode address = none → getAliasAddress getNode address = address)
    ∧ (∀ node, getNode address = some node →
        alLookup node.config AttrNameAlias = none →
        getAliasAddress getNode address = address)
    ∧ (∀ node c, getNode address = some node →
        alLookup node.config AttrNameAlias = some c → c.value = "" →
        getAliasAddress getNode address = address)
    ∧ (∀ node c, getNode address = some node →
        alLookup node.config AttrNameAlias = some c → c.value ≠ "" →
        3 ≤ (splitSlash address).length →
        getAliasAddress getNode address =
          String.intercalate "/" ((splitSlash address).set 2 c.value)
        ∧ ((splitSlash address).set 2 c.value)[2]? = some c.value
        ∧ ∀ i, i ≠ 2 →
            ((splitSlash address).set 2 c.value)[i]? =
              (splitSlash address)[i]?) := by
  refine ⟨?_, ?_, ?_, ?_⟩
  · intro h
    simp [getAliasAddress, h]
  · intro node h hc
    simp [getAliasAddress, h, hc]
  · intro node c h hc hv
    simp [getAliasAddress, h, hc, hv]
  · intro node c h hc hv hlen
    refine ⟨by simp [getAliasAddress, h, hc, hv], ?_, ?_⟩
    · exact List.getElem?_set_eq_of_lt _ (by omega)
    · intro i hi
      rw [List.getElem?_set_ne (fun hh => hi hh.symm)]

/-- Witness for C9 at a concrete input: the fixture node's alias replaces
the nodeID slot of the fixture address. -/
theorem c9_alias_address_replacement_witness :
    getAliasAddress c9GetNode "test/pub1/node1/$value/switch/0" =
      String.intercalate "/"
        ((splitSlash "test/pub1/node1/$value/switch/0").set 2 "alias1") :=
  ((c9_alias_address_replacement c9GetNode
      "test/pub1/node1/$value/switch/0").2.2.2 c9Node { value := "alias1" }
    rfl rfl (by decide) (by decide)).1

/-- C10: a nil private signing key, or a failing ECDSA signing operation,
makes `ecdsaSign` (output.go:25-36) return the empty string rather than
an error, and `publishMessage` (output.go:121-134) still hands the
messenger a publication envelope whose signature is empty. -/
theorem c10_publish_with_empty_signature
    {K α : Type} (signPrivateKey : Option K)
    (sign : K → String → Option String) (marshal : α → Option String)
    (address : String) (message : α) (buffer : String)
    (hm : marshal message = some buffer)
    (hk : signPrivateKey = none
      ∨ ∃ k, signPrivateKey = some k ∧ sign k buffer = none) :
    ecdsaSign signPrivateKey sign buffer = ""
      ∧ publishMessage signPrivateKey sign marshal address message =
        some (address, { message := buffer, signature := "" }) := by
  have hsig : ecdsaSign signPrivateKey sign buffer = "" := by
    rcases hk with h | ⟨k, hk, hs⟩
    · simp [ecdsaSign, h]
    · simp [ecdsaSign, hk, hs]
  exact ⟨hsig, by simp [publishMessage, hm, hsig]⟩

/-- Witness for C10 at a concrete input: a key whose signing operation
fails still yields a publication carrying the empty signature. -/
theorem c10_publish_with_empty_signature_witness :
    ecdsaSign (some ()) (fun _ _ => (none : Option String)) "BUF" = ""
      ∧ publishMessage (some ()) (fun _ _ => (none : Option String))
          (fun _ : Unit => some "BUF") "test/pub1/node1/$value" () =
        some ("test/pub1/node1/$value",
          { message := "BUF", signature := "" }) :=
  c10_publish_with_empty_signature (some ())
    (fun _ _ => (none : Option String)) (fun _ : Unit => some "BUF")
    "test/pub1/node1/$value" () "BUF" rfl (Or.inr ⟨(), rfl, rfl⟩)

end IotDomain
